import Mathlib

/-!
Verification of the sale transaction engine of the pos-api repository
(internal/service TransactionService, internal/repository product/transaction
repositories, internal/models Transaction/Product).

The Go code is shallowly embedded as follows: the database is an explicit
`World` value (association lists of rows); each repository call is a pure
function on `World`; repository calls that can return a database error are
driven by an explicit `Faults` record saying which calls fail, so that the
error-handling paths of the service are part of the model.  Go `float64`
money amounts are modelled exactly as rationals (the arithmetic expressions
of the source carry over verbatim); Go `int` is modelled as `Int`.
`uuid.New()` and `time.Now()` are modelled as explicit parameters
(`txID`, `dateStr`) and an index-derived fresh id per line item.
-/

set_option maxRecDepth 4000

/-- internal/models (product model): a product row.  The category join,
image url and timestamps are omitted: the transaction engine never reads
them. -/
structure Product where
  id : String
  sku : String
  name : String
  price : ℚ
  stock : Int
  isActive : Bool
deriving Repr, DecidableEq

/-- internal/models (transaction model): a line item of a sale.
`CreatedAt` and the joined product are omitted. -/
structure TransactionItem where
  id : String
  transactionID : String
  productID : String
  productName : String
  unitPrice : ℚ
  quantity : Int
  subtotal : ℚ
deriving Repr, DecidableEq

/-- internal/models (transaction model): a sale.  Timestamps and the
joined user/customer are omitted. -/
structure Transaction where
  id : String
  userID : String
  customerID : Option String
  invoiceNumber : String
  subtotal : ℚ
  taxAmount : ℚ
  discountAmount : ℚ
  totalAmount : ℚ
  paymentMethod : String
  status : String
  notes : String
  items : List TransactionItem
deriving Repr, DecidableEq

/-- internal/models (customer model), restricted to the field the
transaction engine touches. -/
structure Customer where
  id : String
  loyaltyPoints : Int
deriving Repr, DecidableEq

/-- models.StatusPending -/
def StatusPending : String := "pending"

/-- models.StatusCompleted -/
def StatusCompleted : String := "completed"

/-- models.StatusCancelled -/
def StatusCancelled : String := "cancelled"

/-- models.StatusRefunded -/
def StatusRefunded : String := "refunded"

/-- service.TaxRate (10%) -/
def TaxRate : ℚ := 1/10

/-- service.LoyaltyPointsPerTransaction -/
def LoyaltyPointsPerTransaction : Int := 10

/-- models.Transaction.IsCancellable: status is pending. -/
def Transaction.IsCancellable (t : Transaction) : Bool :=
  t.status == StatusPending

/-- models.Transaction.IsRefundable: status is completed. -/
def Transaction.IsRefundable (t : Transaction) : Bool :=
  t.status == StatusCompleted

/-- models.Product.HasSufficientStock. -/
def Product.HasSufficientStock (p : Product) (quantity : Int) : Bool :=
  decide (quantity ≤ p.stock)

/-- The database: the three tables the transaction engine touches. -/
structure World where
  products : List Product
  transactions : List Transaction
  customers : List Customer
deriving Repr, DecidableEq

/-- productRepository.GetByID: first row whose id matches, none for no rows. -/
def getProduct (w : World) (id : String) : Option Product :=
  w.products.find? (fun p => p.id == id)

/-- productRepository.UpdateStock: UPDATE products SET stock = quantity
WHERE id = id — an unconditional write of the given absolute quantity. -/
def updateStock (w : World) (id : String) (quantity : Int) : World :=
  { w with
    products := w.products.map (fun p => if p.id == id then { p with stock := quantity } else p) }

/-- transactionRepository.GetByID (with its item join). -/
def getTransaction (w : World) (id : String) : Option Transaction :=
  w.transactions.find? (fun t => t.id == id)

/-- transactionRepository.UpdateStatus: UPDATE transactions SET status
WHERE id = id — conditional on the id only, not on the current status. -/
def setTransactionStatus (w : World) (id : String) (status : String) : World :=
  { w with
    transactions :=
      w.transactions.map (fun t => if t.id == id then { t with status := status } else t) }

/-- customerRepository.GetByID. -/
def getCustomer (w : World) (id : String) : Option Customer :=
  w.customers.find? (fun c => c.id == id)

/-- customerRepository.UpdateLoyaltyPoints: writes the absolute new value. -/
def updateLoyaltyPoints (w : World) (id : String) (points : Int) : World :=
  { w with
    customers :=
      w.customers.map (fun c => if c.id == id then { c with loyaltyPoints := points } else c) }

/-- Which repository calls fail with a database error during a run.
`productGetFails` / `stockUpdateFails` list product ids whose
GetByID / UpdateStock calls error. -/
structure Faults where
  productGetFails : List String
  stockUpdateFails : List String
  persistFails : Bool
  txGetFails : Bool
  statusUpdateFails : Bool
  customerGetFails : Bool
  customerUpdateFails : Bool
deriving Repr, DecidableEq

/-- A run in which every repository call succeeds. -/
def noFaults : Faults :=
  { productGetFails := [], stockUpdateFails := [], persistFails := false,
    txGetFails := false, statusUpdateFails := false,
    customerGetFails := false, customerUpdateFails := false }

/-- dto.CreateTransactionItemDTO. -/
structure CreateTransactionItemDTO where
  productID : String
  quantity : Int
deriving Repr, DecidableEq

/-- dto.CreateTransactionRequest. -/
structure CreateTransactionRequest where
  customerID : Option String
  paymentMethod : String
  discountAmount : ℚ
  notes : String
  items : List CreateTransactionItemDTO
deriving Repr, DecidableEq

/-- Errors TransactionService.Create can return (the Go code returns
fmt.Errorf strings; the constructors carry the same distinguishing data). -/
inductive CreateErr where
  | repoFailure
  | productNotFound (id : String)
  | productNotAvailable (name : String)
  | insufficientStock (name : String)
  | validationFailed
deriving Repr, DecidableEq

deriving instance DecidableEq for Except

/-- Errors TransactionService.UpdateStatus can return. -/
inductive UpdateStatusErr where
  | repoFailure
  | transactionNotFound
  | cannotCancel
  | cannotRefund
  | validationFailed
deriving Repr, DecidableEq

/-- The per-item loop of TransactionService.Create (service layer): for each
requested item, product lookup, active and stock checks, snapshot into a
line item, then productRepo.UpdateStock with the stock read minus the
quantity.  On any error the loop stops and returns the error together with
the database as already mutated — the Go code has no rollback.  `n` indexes
the item for its fresh id (modelling uuid.New per item). -/
def createItemsLoop (productGetFails stockUpdateFails : List String) (txID : String) :
    Nat → World → List CreateTransactionItemDTO →
    World × Except CreateErr (List TransactionItem × ℚ)
  | _, w, [] => (w, .ok ([], 0))
  | n, w, itemReq :: rest =>
    if productGetFails.contains itemReq.productID then (w, .error .repoFailure)
    else
      match getProduct w itemReq.productID with
      | none => (w, .error (.productNotFound itemReq.productID))
      | some product =>
        if !product.isActive then (w, .error (.productNotAvailable product.name))
        else if !product.HasSufficientStock itemReq.quantity then
          (w, .error (.insufficientStock product.name))
        else
          let itemSubtotal := product.price * (itemReq.quantity : ℚ)
          let item : TransactionItem :=
            { id := txID ++ "-item-" ++ toString n, transactionID := txID,
              productID := product.id, productName := product.name,
              unitPrice := product.price, quantity := itemReq.quantity,
              subtotal := itemSubtotal }
          if stockUpdateFails.contains product.id then (w, .error .repoFailure)
          else
            match createItemsLoop productGetFails stockUpdateFails txID (n + 1)
                (updateStock w product.id (product.stock - itemReq.quantity)) rest with
            | (w2, .error e) => (w2, .error e)
            | (w2, .ok (items, sub)) => (w2, .ok (item :: items, itemSubtotal + sub))

/-- The loyalty-point step at the end of TransactionService.Create: if a
customer id is present and non-empty, look the customer up; if the lookup
succeeds and finds a row, write points + LoyaltyPointsPerTransaction,
ignoring any error of the write.  No error is ever returned. -/
def applyLoyalty (customerGetFails customerUpdateFails : Bool)
    (w : World) (customerID : Option String) : World :=
  match customerID with
  | none => w
  | some cid =>
    if cid == "" then w
    else if customerGetFails then w
    else
      match getCustomer w cid with
      | none => w
      | some customer =>
        if customerUpdateFails then w
        else updateLoyaltyPoints w cid (customer.loyaltyPoints + LoyaltyPointsPerTransaction)

/-- TransactionService.Create.  `dateStr` models time.Now().Format("20060102")
and `txID` models uuid.New().String().  Returns the final database state
next to the result, because the Go code mutates the database as it goes and
does not undo those writes on error. -/
def TransactionService.Create (f : Faults) (w : World) (userID : String)
    (dateStr txID : String) (req : CreateTransactionRequest) :
    World × Except CreateErr Transaction :=
  let invoiceNumber := "INV-" ++ dateStr ++ "-" ++ txID.take 8
  match createItemsLoop f.productGetFails f.stockUpdateFails txID 0 w req.items with
  | (w1, .error e) => (w1, .error e)
  | (w1, .ok (items, subtotal)) =>
    let taxAmount := subtotal * TaxRate
    let totalAmount := subtotal + taxAmount - req.discountAmount
    let transaction : Transaction :=
      { id := txID, userID := userID, customerID := req.customerID,
        invoiceNumber := invoiceNumber, subtotal := subtotal, taxAmount := taxAmount,
        discountAmount := req.discountAmount, totalAmount := totalAmount,
        paymentMethod := req.paymentMethod, status := StatusCompleted,
        notes := req.notes, items := items }
    if f.persistFails then (w1, .error .repoFailure)
    else
      let w2 : World := { w1 with transactions := w1.transactions ++ [transaction] }
      (applyLoyalty f.customerGetFails f.customerUpdateFails w2 req.customerID, .ok transaction)

/-- The loop of TransactionService.UpdateStatus that restores stock for a
cancelled/refunded sale: for each line item, productRepo.GetByID; only when
the lookup returns no error and a row is it followed by
productRepo.UpdateStock(stock read + item quantity), whose error is in turn
discarded.  Items whose lookup fails are skipped silently. -/
def restoreTransactionItems (f : Faults) : World → List TransactionItem → World
  | w, [] => w
  | w, item :: rest =>
    let w1 :=
      if f.productGetFails.contains item.productID then w
      else
        match getProduct w item.productID with
        | none => w
        | some product =>
          if f.stockUpdateFails.contains item.productID then w
          else updateStock w item.productID (product.stock + item.quantity)
    restoreTransactionItems f w1 rest

/-- The tail of TransactionService.UpdateStatus: the repository status write
(unconditional on the current status) and the response. -/
def finishUpdateStatus (f : Faults) (w : World) (id newStatus : String)
    (transaction : Transaction) : World × Except UpdateStatusErr Transaction :=
  if f.statusUpdateFails then (w, .error .repoFailure)
  else (setTransactionStatus w id newStatus, .ok { transaction with status := newStatus })

/-- TransactionService.UpdateStatus: load the sale, guard the cancelled and
refunded targets with IsCancellable/IsRefundable (restoring stock when the
guard passes), pass any other requested status straight through, then write
the new status. -/
def TransactionService.UpdateStatus (f : Faults) (w : World) (id : String)
    (newStatus : String) : World × Except UpdateStatusErr Transaction :=
  if f.txGetFails then (w, .error .repoFailure)
  else
    match getTransaction w id with
    | none => (w, .error .transactionNotFound)
    | some transaction =>
      if newStatus == StatusCancelled then
        if !transaction.IsCancellable then (w, .error .cannotCancel)
        else
          finishUpdateStatus f (restoreTransactionItems f w transaction.items) id newStatus
            transaction
      else if newStatus == StatusRefunded then
        if !transaction.IsRefundable then (w, .error .cannotRefund)
        else
          finishUpdateStatus f (restoreTransactionItems f w transaction.items) id newStatus
            transaction
      else finishUpdateStatus f w id newStatus transaction

/-- models payment method constants (dto tag oneof=cash card ewallet). -/
def allowedPaymentMethods : List String := ["cash", "card", "ewallet"]

/-- utils.Validate(&req) as run by TransactionHandler.Create
(internal/handler, the TransactionHandler segment of
notification_handler.go): the validator tags on
dto.CreateTransactionRequest — payment_method required and one of
cash/card/ewallet, discount_amount gte=0, notes max=500, items required
with min=1, each item product_id required and quantity gt=0.  The uuid
format checks on customer_id/product_id are abstracted as the
non-emptiness part of `required`; no claim turns on uuid syntax. -/
def validateCreateTransactionRequest (req : CreateTransactionRequest) : Bool :=
  allowedPaymentMethods.contains req.paymentMethod
  && decide (0 ≤ req.discountAmount)
  && decide (req.notes.length ≤ 500)
  && !req.items.isEmpty
  && req.items.all (fun i => i.productID != "" && decide (0 < i.quantity))

/-- TransactionHandler.Create (POST /api/v1/transactions, in the
TransactionHandler segment of internal/handler/notification_handler.go):
binds CreateTransactionRequest, runs utils.Validate and returns a
validation-error response without touching the service when it fails;
otherwise calls TransactionService.Create. -/
def transactionHandlerCreate (f : Faults) (w : World) (userID dateStr txID : String)
    (req : CreateTransactionRequest) : World × Except CreateErr Transaction :=
  if !validateCreateTransactionRequest req then (w, .error .validationFailed)
  else TransactionService.Create f w userID dateStr txID req

/-- POSHandler.CreateTransaction (POST /api/v1/pos/transactions): binds its
own anonymous request struct, copies customer id, payment method, discount
amount, notes and each item's product id and quantity into a
dto.CreateTransactionRequest, and calls TransactionService.Create
directly — it never calls utils.Validate, so no dto validation runs on
this entry point. -/
def posHandlerCreateTransaction (f : Faults) (w : World) (userID dateStr txID : String)
    (req : CreateTransactionRequest) : World × Except CreateErr Transaction :=
  TransactionService.Create f w userID dateStr txID req

/-- utils.Validate on dto.UpdateTransactionStatusRequest as run by
TransactionHandler.UpdateStatus: the tag oneof=completed cancelled
refunded. -/
def validateUpdateStatusRequest (status : String) : Bool :=
  [StatusCompleted, StatusCancelled, StatusRefunded].contains status

/-- TransactionHandler.UpdateStatus (PATCH /api/v1/transactions/:id/status,
in the TransactionHandler segment of
internal/handler/notification_handler.go): binds
UpdateTransactionStatusRequest, runs utils.Validate, and calls
TransactionService.UpdateStatus when it passes. -/
def transactionHandlerUpdateStatus (f : Faults) (w : World) (id status : String) :
    World × Except UpdateStatusErr Transaction :=
  if !validateUpdateStatusRequest status then (w, .error .validationFailed)
  else TransactionService.UpdateStatus f w id status

/-- Stock of a product as read through productRepository.GetByID, 0 for a
missing row. -/
def stockOf (w : World) (id : String) : Int :=
  match getProduct w id with
  | some p => p.stock
  | none => 0

/-- Result projection: did Create succeed. -/
def isOkTx : Except CreateErr Transaction → Bool
  | .ok _ => true
  | .error _ => false

/-- Result projection: did UpdateStatus succeed. -/
def isOkUpd : Except UpdateStatusErr Transaction → Bool
  | .ok _ => true
  | .error _ => false

/-- Result projection: the created sale's subtotal (0 on error). -/
def okSubtotal : Except CreateErr Transaction → ℚ
  | .ok t => t.subtotal
  | .error _ => 0

/-- Result projection: the created sale's total amount (0 on error). -/
def okTotal : Except CreateErr Transaction → ℚ
  | .ok t => t.totalAmount
  | .error _ => 0

/-- Result projection: the created sale's invoice number. -/
def okInvoice : Except CreateErr Transaction → String
  | .ok t => t.invoiceNumber
  | .error _ => ""

/-- Result projection: the created sale's id. -/
def okSaleID : Except CreateErr Transaction → String
  | .ok t => t.id
  | .error _ => ""

/-- Result projection: the created sale's status. -/
def okStatus : Except CreateErr Transaction → String
  | .ok t => t.status
  | .error _ => ""

/-- A product row with defaults used by the concrete scenarios. -/
def mkProduct (id name : String) (price : ℚ) (stock : Int) : Product :=
  { id := id, sku := id, name := name, price := price, stock := stock, isActive := true }

/-- A creation request with defaults used by the concrete scenarios. -/
def mkReq (items : List CreateTransactionItemDTO) (discount : ℚ) : CreateTransactionRequest :=
  { customerID := none, paymentMethod := "cash", discountAmount := discount,
    notes := "", items := items }

example :
    (TransactionService.Create noFaults
      { products := [mkProduct "p1" "Widget" 5 10], transactions := [], customers := [] }
      "u1" "20260101" "aabbccdd-xyz" (mkReq [⟨"p1", 2⟩] 0)).2
    = .ok
      { id := "aabbccdd-xyz", userID := "u1", customerID := none,
        invoiceNumber := "INV-20260101-aabbccdd", subtotal := 10, taxAmount := 1,
        discountAmount := 0, totalAmount := 11, paymentMethod := "cash",
        status := "completed", notes := "",
        items := [{ id := "aabbccdd-xyz-item-0", transactionID := "aabbccdd-xyz",
                    productID := "p1", productName := "Widget", unitPrice := 5,
                    quantity := 2, subtotal := 10 }] } := by
  norm_num [TransactionService.Create, createItemsLoop, getProduct, mkProduct, mkReq,
    noFaults, updateStock, applyLoyalty, Product.HasSufficientStock, TaxRate,
    StatusCompleted, List.find?]
  decide

example :
    stockOf (TransactionService.Create noFaults
      { products := [mkProduct "p1" "Widget" 5 10], transactions := [], customers := [] }
      "u1" "20260101" "aabbccdd-xyz" (mkReq [⟨"p1", 2⟩] 0)).1 "p1" = 8 := by
  decide

/-- Modelled from the spec: rounding to 2 decimal places, half-up.  Used
only to compare the code's arithmetic against the spec's rounding clause;
the Go code itself contains no rounding step. -/
def roundHalfUp2 (x : ℚ) : ℚ := ((⌊x * 100 + 1/2⌋ : ℤ) : ℚ) / 100

/-- One in-flight single-item stock reservation inside
TransactionService.Create, split at its two database calls: first
productRepo.GetByID followed by the application-side checks against the
stock value read, then productRepo.UpdateStock writing that read value
minus the requested quantity. -/
inductive ReserveState where
  | start
  | loaded (r : Int)
  | failed
  | succeeded
deriving Repr, DecidableEq

/-- One atomic database step of a reservation for quantity `q` against the
shared stock cell: the read-and-check step, or the write step (which writes
the absolute value computed from the earlier read, exactly as the Go code
passes product.Stock - quantity to UpdateStock). -/
def reserveStep (q : Int) (stock : Int) : ReserveState → ReserveState × Int
  | .start => if decide (q ≤ stock) then (.loaded stock, stock) else (.failed, stock)
  | .loaded r => (.succeeded, r - q)
  | s => (s, stock)

/-- Run two concurrent reservations under a schedule: `true` steps the
first caller, `false` the second.  Returns final stock and both outcomes. -/
def runReserveSched (q1 q2 : Int) :
    List Bool → Int → ReserveState → ReserveState → Int × ReserveState × ReserveState
  | [], stock, s1, s2 => (stock, s1, s2)
  | true :: rest, stock, s1, s2 =>
    let r := reserveStep q1 stock s1
    runReserveSched q1 q2 rest r.2 r.1 s2
  | false :: rest, stock, s1, s2 =>
    let r := reserveStep q2 stock s2
    runReserveSched q1 q2 rest r.2 s1 r.1

/-- The shared database row pair touched by a refund: the product's stock
and the sale's stored status. -/
structure SaleCell where
  stock : Int
  status : String
deriving Repr, DecidableEq

/-- One in-flight TransactionService.UpdateStatus(id, refunded) call, split
at its database calls: transactionRepo.GetByID (capturing the status),
the compensating stock restore (conservatively taken as one atomic step),
and transactionRepo.UpdateStatus (an unconditional status write). -/
inductive RefundState where
  | start
  | loaded (st : String)
  | rejected
  | restored
  | finished
deriving Repr, DecidableEq

/-- One atomic step of a refund of quantity `q`; the middle component
counts how many times the compensating restore has executed. -/
def refundStep (q : Int) : SaleCell × Nat × RefundState → SaleCell × Nat × RefundState
  | (c, n, .start) => (c, n, .loaded c.status)
  | (c, n, .loaded st) =>
    if st == StatusCompleted then ({ c with stock := c.stock + q }, n + 1, .restored)
    else (c, n, .rejected)
  | (c, n, .restored) => ({ c with status := StatusRefunded }, n, .finished)
  | x => x

/-- Run two concurrent refund requests for the same sale under a schedule:
`true` steps the first caller, `false` the second. -/
def runRefundSched (q : Int) :
    List Bool → SaleCell → Nat → RefundState → RefundState →
    SaleCell × Nat × RefundState × RefundState
  | [], c, n, s1, s2 => (c, n, s1, s2)
  | true :: rest, c, n, s1, s2 =>
    let r := refundStep q (c, n, s1)
    runRefundSched q rest r.1 r.2.1 r.2.2 s2
  | false :: rest, c, n, s1, s2 =>
    let r := refundStep q (c, n, s2)
    runRefundSched q rest r.1 r.2.1 s1 r.2.2

/-- Was the compensating restore for this line item actually applied by
`restoreTransactionItems` in state `w`: lookup did not error, the product
row exists, and the stock write did not error. -/
def itemRestored (f : Faults) (w : World) (item : TransactionItem) : Bool :=
  !f.productGetFails.contains item.productID
  && (getProduct w item.productID).isSome
  && !f.stockUpdateFails.contains item.productID

/-- Total quantity `restoreTransactionItems` adds back to product `pid`:
the sum of the quantities of the items referencing `pid` whose restore was
actually applied. -/
def restoredQty (f : Faults) (w : World) (items : List TransactionItem) (pid : String) : Int :=
  ((items.filter (fun item => item.productID == pid && itemRestored f w item)).map
    (fun item => item.quantity)).sum

lemma find?_id_map_setStock (l : List Product) (id : String) (q : Int) (pid : String) :
    (l.map (fun p => if p.id == id then { p with stock := q } else p)).find?
        (fun p => p.id == pid)
      = (l.find? (fun p => p.id == pid)).map
          (fun p => if p.id == id then { p with stock := q } else p) := by
  have hcomp :
      ((fun p : Product => p.id == pid)
          ∘ (fun p : Product => if p.id == id then { p with stock := q } else p))
        = (fun p : Product => p.id == pid) := by
    funext p
    by_cases h : (p.id == id) = true <;> simp [Function.comp, h]
  rw [List.find?_map, hcomp]

lemma getProduct_updateStock (w : World) (id : String) (q : Int) (pid : String) :
    getProduct (updateStock w id q) pid
      = (getProduct w pid).map (fun p => if p.id == id then { p with stock := q } else p) := by
  simpa [getProduct, updateStock] using find?_id_map_setStock w.products id q pid

lemma getProduct_id (w : World) (pid : String) (p : Product)
    (h : getProduct w pid = some p) : p.id = pid := by
  have := List.find?_some h
  simpa using this

lemma isSome_getProduct_updateStock (w : World) (id : String) (q : Int) (pid : String) :
    (getProduct (updateStock w id q) pid).isSome = (getProduct w pid).isSome := by
  rw [getProduct_updateStock]
  cases getProduct w pid <;> rfl

lemma stockOf_updateStock (w : World) (id : String) (q : Int) (pid : String) :
    stockOf (updateStock w id q) pid
      = if pid = id ∧ (getProduct w pid).isSome = true then q else stockOf w pid := by
  unfold stockOf
  rw [getProduct_updateStock]
  cases h : getProduct w pid with
  | none => simp
  | some p =>
    have hid : p.id = pid := getProduct_id w pid p h
    by_cases hpid : pid = id
    · simp [Option.map_some, hid, hpid]
    · simp [Option.map_some, hid, hpid]

lemma restoredQty_cons (f : Faults) (w : World) (item : TransactionItem)
    (rest : List TransactionItem) (pid : String) :
    restoredQty f w (item :: rest) pid
      = (if (item.productID == pid && itemRestored f w item) = true then item.quantity else 0)
        + restoredQty f w rest pid := by
  unfold restoredQty
  by_cases h : (item.productID == pid && itemRestored f w item) = true
  · simp [List.filter_cons, h]
  · simp [List.filter_cons, h]

lemma itemRestored_updateStock (f : Faults) (w : World) (id : String) (q : Int)
    (item : TransactionItem) :
    itemRestored f (updateStock w id q) item = itemRestored f w item := by
  unfold itemRestored
  rw [isSome_getProduct_updateStock]

lemma restoredQty_updateStock (f : Faults) (w : World) (id : String) (q : Int)
    (items : List TransactionItem) (pid : String) :
    restoredQty f (updateStock w id q) items pid = restoredQty f w items pid := by
  unfold restoredQty
  congr 1
  congr 1
  apply List.filter_congr
  intro x _
  rw [itemRestored_updateStock]

lemma stockOf_restoreTransactionItems (f : Faults) (items : List TransactionItem) :
    ∀ (w : World) (pid : String),
      stockOf (restoreTransactionItems f w items) pid
        = stockOf w pid + restoredQty f w items pid := by
  induction items with
  | nil => intro w pid; simp [restoreTransactionItems, restoredQty]
  | cons item rest ih =>
    intro w pid
    rw [restoredQty_cons]
    by_cases hg : item.productID ∈ f.productGetFails
    · have hIR : itemRestored f w item = false := by simp [itemRestored, hg]
      have hL : restoreTransactionItems f w (item :: rest) = restoreTransactionItems f w rest := by
        simp [restoreTransactionItems, hg]
      rw [hL, ih w pid, hIR]
      simp
    · cases hp : getProduct w item.productID with
      | none =>
        have hIR : itemRestored f w item = false := by simp [itemRestored, hg, hp]
        have hL : restoreTransactionItems f w (item :: rest)
            = restoreTransactionItems f w rest := by
          simp [restoreTransactionItems, hg, hp]
        rw [hL, ih w pid, hIR]
        simp
      | some product =>
        by_cases hs : item.productID ∈ f.stockUpdateFails
        · have hIR : itemRestored f w item = false := by simp [itemRestored, hs]
          have hL : restoreTransactionItems f w (item :: rest)
              = restoreTransactionItems f w rest := by
            simp [restoreTransactionItems, hg, hp, hs]
          rw [hL, ih w pid, hIR]
          simp
        · have hIR : itemRestored f w item = true := by simp [itemRestored, hg, hp, hs]
          have hL : restoreTransactionItems f w (item :: rest)
              = restoreTransactionItems f
                  (updateStock w item.productID (product.stock + item.quantity)) rest := by
            simp [restoreTransactionItems, hg, hp, hs]
          rw [hL, ih _ pid, restoredQty_updateStock, stockOf_updateStock]
          by_cases hpid : pid = item.productID
          · subst hpid
            have hsome : (getProduct w item.productID).isSome = true := by
              rw [hp]; rfl
            have hstock : stockOf w item.productID = product.stock := by
              unfold stockOf
              rw [hp]
            simp [hsome, hIR, hstock]
            omega
          · have hne : (item.productID == pid) = false := by
              simp
              intro hcon
              exact hpid hcon.symm
            simp [hpid, hne]

lemma stockOf_setTransactionStatus (w : World) (id st pid : String) :
    stockOf (setTransactionStatus w id st) pid = stockOf w pid := rfl

lemma restoredQty_noFaults (w : World) (items : List TransactionItem) (pid : String)
    (hpres : ∀ item ∈ items, (getProduct w item.productID).isSome = true) :
    restoredQty noFaults w items pid
      = ((items.filter (fun item => item.productID == pid)).map
          (fun item => item.quantity)).sum := by
  unfold restoredQty
  congr 1
  congr 1
  apply List.filter_congr
  intro x hx
  simp [itemRestored, noFaults, hpres x hx]

lemma updateStatus_refunded_ok (f : Faults) (w : World) (id : String) (tx : Transaction)
    (hget : getTransaction w id = some tx) (htx : f.txGetFails = false)
    (hst : f.statusUpdateFails = false) (href : tx.status = StatusCompleted) :
    TransactionService.UpdateStatus f w id StatusRefunded
      = (setTransactionStatus (restoreTransactionItems f w tx.items) id StatusRefunded,
         .ok { tx with status := StatusRefunded }) := by
  unfold TransactionService.UpdateStatus finishUpdateStatus
  simp [htx, hget, hst, Transaction.IsRefundable, href,
    StatusRefunded, StatusCancelled, StatusCompleted]

lemma updateStatus_cancelled_ok (f : Faults) (w : World) (id : String) (tx : Transaction)
    (hget : getTransaction w id = some tx) (htx : f.txGetFails = false)
    (hst : f.statusUpdateFails = false) (hpend : tx.status = StatusPending) :
    TransactionService.UpdateStatus f w id StatusCancelled
      = (setTransactionStatus (restoreTransactionItems f w tx.items) id StatusCancelled,
         .ok { tx with status := StatusCancelled }) := by
  unfold TransactionService.UpdateStatus finishUpdateStatus
  simp [htx, hget, hst, Transaction.IsCancellable, hpend,
    StatusPending, StatusCancelled]

lemma updateStatus_cancel_rejected (f : Faults) (w : World) (id : String) (tx : Transaction)
    (hget : getTransaction w id = some tx) (htx : f.txGetFails = false)
    (hne : tx.status ≠ StatusPending) :
    TransactionService.UpdateStatus f w id StatusCancelled = (w, .error .cannotCancel) := by
  unfold TransactionService.UpdateStatus
  simp [htx, hget, Transaction.IsCancellable, hne, StatusCancelled]

lemma updateStatus_refund_rejected (f : Faults) (w : World) (id : String) (tx : Transaction)
    (hget : getTransaction w id = some tx) (htx : f.txGetFails = false)
    (hne : tx.status ≠ StatusCompleted) :
    TransactionService.UpdateStatus f w id StatusRefunded = (w, .error .cannotRefund) := by
  unfold TransactionService.UpdateStatus
  simp [htx, hget, Transaction.IsRefundable, hne, StatusRefunded, StatusCancelled]

lemma updateStatus_other_passthrough (f : Faults) (w : World) (id : String) (tx : Transaction)
    (newStatus : String) (hget : getTransaction w id = some tx) (htx : f.txGetFails = false)
    (hst : f.statusUpdateFails = false) (h1 : newStatus ≠ StatusCancelled)
    (h2 : newStatus ≠ StatusRefunded) :
    TransactionService.UpdateStatus f w id newStatus
      = (setTransactionStatus w id newStatus, .ok { tx with status := newStatus }) := by
  unfold TransactionService.UpdateStatus finishUpdateStatus
  simp [htx, hget, hst, h1, h2]

lemma customers_updateStock (w : World) (id : String) (q : Int) :
    (updateStock w id q).customers = w.customers := rfl

lemma transactions_updateStock (w : World) (id : String) (q : Int) :
    (updateStock w id q).transactions = w.transactions := rfl

lemma createItemsLoop_tables (pgf sgf : List String) (txID : String) :
    ∀ (items : List CreateTransactionItemDTO) (n : Nat) (w : World),
      ((createItemsLoop pgf sgf txID n w items).1).customers = w.customers
      ∧ ((createItemsLoop pgf sgf txID n w items).1).transactions = w.transactions := by
  intro items
  induction items with
  | nil => intro n w; exact ⟨rfl, rfl⟩
  | cons itemReq rest ih =>
    intro n w
    by_cases hg : itemReq.productID ∈ pgf
    · simp [createItemsLoop, hg]
    · cases hp : getProduct w itemReq.productID with
      | none => simp [createItemsLoop, hg, hp]
      | some product =>
        by_cases ha : product.isActive
        · by_cases hsuff : product.HasSufficientStock itemReq.quantity = true
          · by_cases hsg : product.id ∈ sgf
            · simp [createItemsLoop, hg, hp, ha, hsuff, hsg]
            · cases hrec : createItemsLoop pgf sgf txID (n + 1)
                  (updateStock w product.id (product.stock - itemReq.quantity)) rest with
              | mk w2 r =>
                have h := ih (n + 1) (updateStock w product.id (product.stock - itemReq.quantity))
                rw [hrec] at h
                cases r with
                | error e =>
                  simp [createItemsLoop, hg, hp, ha, hsuff, hsg, hrec]
                  exact h
                | ok pair =>
                  simp [createItemsLoop, hg, hp, ha, hsuff, hsg, hrec]
                  exact h
          · simp [createItemsLoop, hg, hp, ha, hsuff]
        · simp [createItemsLoop, hg, hp, ha]

lemma createItemsLoop_ok_subtotal (pgf sgf : List String) (txID : String) :
    ∀ (items : List CreateTransactionItemDTO) (n : Nat) (w w2 : World)
      (its : List TransactionItem) (sub : ℚ),
      createItemsLoop pgf sgf txID n w items = (w2, .ok (its, sub)) →
      sub = (its.map (fun i => i.subtotal)).sum
      ∧ ∀ i ∈ its, i.subtotal = i.unitPrice * (i.quantity : ℚ) := by
  intro items
  induction items with
  | nil =>
    intro n w w2 its sub h
    simp [createItemsLoop] at h
    obtain ⟨-, h2, h3⟩ := h
    subst h2
    subst h3
    simp
  | cons itemReq rest ih =>
    intro n w w2 its sub h
    by_cases hg : itemReq.productID ∈ pgf
    · simp [createItemsLoop, hg] at h
    · cases hp : getProduct w itemReq.productID with
      | none => simp [createItemsLoop, hg, hp] at h
      | some product =>
        by_cases ha : product.isActive
        · by_cases hsuff : product.HasSufficientStock itemReq.quantity = true
          · by_cases hsg : product.id ∈ sgf
            · simp [createItemsLoop, hg, hp, ha, hsuff, hsg] at h
            · cases hrec : createItemsLoop pgf sgf txID (n + 1)
                  (updateStock w product.id (product.stock - itemReq.quantity)) rest with
              | mk w3 r =>
                cases r with
                | error e =>
                  simp [createItemsLoop, hg, hp, ha, hsuff, hsg, hrec] at h
                | ok pair =>
                  obtain ⟨its0, sub0⟩ := pair
                  simp [createItemsLoop, hg, hp, ha, hsuff, hsg, hrec] at h
                  obtain ⟨-, h2, h3⟩ := h
                  obtain ⟨hsum, hitems⟩ := ih (n + 1)
                    (updateStock w product.id (product.stock - itemReq.quantity)) w3 its0 sub0
                    (by rw [hrec])
                  subst h2
                  subst h3
                  constructor
                  · simp [hsum]
                  · intro i hi
                    rcases List.mem_cons.mp hi with hi1 | hi2
                    · subst hi1
                      rfl
                    · exact hitems i hi2
          · simp [createItemsLoop, hg, hp, ha, hsuff] at h
        · simp [createItemsLoop, hg, hp, ha] at h

lemma applyLoyalty_products (a b : Bool) (w : World) (c : Option String) :
    (applyLoyalty a b w c).products = w.products := by
  unfold applyLoyalty
  cases c with
  | none => rfl
  | some cid =>
    by_cases h1 : (cid == "") = true
    · simp [h1]
    · by_cases h2 : a = true
      · simp [h1, h2]
      · cases hc : getCustomer w cid with
        | none => simp [h1, h2, hc]
        | some customer =>
          by_cases h3 : b = true
          · simp [h1, h2, hc, h3]
          · simp [h1, h2, hc, h3, updateLoyaltyPoints]

lemma applyLoyalty_transactions (a b : Bool) (w : World) (c : Option String) :
    (applyLoyalty a b w c).transactions = w.transactions := by
  unfold applyLoyalty
  cases c with
  | none => rfl
  | some cid =>
    by_cases h1 : (cid == "") = true
    · simp [h1]
    · by_cases h2 : a = true
      · simp [h1, h2]
      · cases hc : getCustomer w cid with
        | none => simp [h1, h2, hc]
        | some customer =>
          by_cases h3 : b = true
          · simp [h1, h2, hc, h3]
          · simp [h1, h2, hc, h3, updateLoyaltyPoints]

/-- Loyalty points of a customer as read through customerRepository.GetByID,
0 for a missing row. -/
def pointsOf (w : World) (cid : String) : Int :=
  match getCustomer w cid with
  | some c => c.loyaltyPoints
  | none => 0

lemma find?_id_map_setPoints (l : List Customer) (id : String) (q : Int) (cid : String) :
    (l.map (fun c => if c.id == id then { c with loyaltyPoints := q } else c)).find?
        (fun c => c.id == cid)
      = (l.find? (fun c => c.id == cid)).map
          (fun c => if c.id == id then { c with loyaltyPoints := q } else c) := by
  have hcomp :
      ((fun c : Customer => c.id == cid)
          ∘ (fun c : Customer => if c.id == id then { c with loyaltyPoints := q } else c))
        = (fun c : Customer => c.id == cid) := by
    funext c
    by_cases h : (c.id == id) = true <;> simp [Function.comp, h]
  rw [List.find?_map, hcomp]

lemma getCustomer_updateLoyaltyPoints (w : World) (id : String) (q : Int) (cid : String) :
    getCustomer (updateLoyaltyPoints w id q) cid
      = (getCustomer w cid).map
          (fun c => if c.id == id then { c with loyaltyPoints := q } else c) := by
  simpa [getCustomer, updateLoyaltyPoints] using find?_id_map_setPoints w.customers id q cid

lemma getCustomer_id (w : World) (cid : String) (c : Customer)
    (h : getCustomer w cid = some c) : c.id = cid := by
  have := List.find?_some h
  simpa using this

lemma applyLoyalty_credits (w : World) (cid : String) (c : Customer)
    (hc : getCustomer w cid = some c) (hne : cid ≠ "") :
    pointsOf (applyLoyalty false false w (some cid)) cid
      = c.loyaltyPoints + LoyaltyPointsPerTransaction := by
  have hid : c.id = cid := getCustomer_id w cid c hc
  have hbeq : (cid == "") = false := by simpa using hne
  have hstep : applyLoyalty false false w (some cid)
      = updateLoyaltyPoints w cid (c.loyaltyPoints + LoyaltyPointsPerTransaction) := by
    simp [applyLoyalty, hbeq, hc]
  rw [hstep]
  unfold pointsOf
  rw [getCustomer_updateLoyaltyPoints, hc]
  simp [hid]

lemma create_ok_shape (f : Faults) (w : World) (u d t : String)
    (req : CreateTransactionRequest) (tx : Transaction)
    (hok : (TransactionService.Create f w u d t req).2 = .ok tx) :
    ∃ w1 its sub,
      createItemsLoop f.productGetFails f.stockUpdateFails t 0 w req.items = (w1, .ok (its, sub))
      ∧ f.persistFails = false
      ∧ tx = { id := t, userID := u, customerID := req.customerID,
               invoiceNumber := "INV-" ++ d ++ "-" ++ t.take 8, subtotal := sub,
               taxAmount := sub * TaxRate, discountAmount := req.discountAmount,
               totalAmount := sub + sub * TaxRate - req.discountAmount,
               paymentMethod := req.paymentMethod, status := StatusCompleted,
               notes := req.notes, items := its } := by
  unfold TransactionService.Create at hok
  cases hloop : createItemsLoop f.productGetFails f.stockUpdateFails t 0 w req.items with
  | mk w1 r =>
    rw [hloop] at hok
    cases r with
    | error e => simp at hok
    | ok pair =>
      obtain ⟨its, sub⟩ := pair
      by_cases hpf : f.persistFails = true
      · simp [hpf] at hok
      · simp only [Bool.not_eq_true] at hpf
        simp [hpf] at hok
        exact ⟨w1, its, sub, rfl, hpf, hok.symm⟩

lemma getCustomer_congr (w1 w2 : World) (h : w1.customers = w2.customers) (cid : String) :
    getCustomer w1 cid = getCustomer w2 cid := by
  unfold getCustomer
  rw [h]

lemma create_customerFault_independent (f g : Faults) (w : World) (u d t : String)
    (req : CreateTransactionRequest)
    (hp : f.productGetFails = g.productGetFails)
    (hs : f.stockUpdateFails = g.stockUpdateFails)
    (hpf : f.persistFails = g.persistFails) :
    (TransactionService.Create f w u d t req).2 = (TransactionService.Create g w u d t req).2
    ∧ ((TransactionService.Create f w u d t req).1).products
        = ((TransactionService.Create g w u d t req).1).products
    ∧ ((TransactionService.Create f w u d t req).1).transactions
        = ((TransactionService.Create g w u d t req).1).transactions := by
  unfold TransactionService.Create
  rw [hp, hs, hpf]
  cases hloop : createItemsLoop g.productGetFails g.stockUpdateFails t 0 w req.items with
  | mk w1 r =>
    cases r with
    | error e => exact ⟨rfl, rfl, rfl⟩
    | ok pair =>
      obtain ⟨its, sub⟩ := pair
      by_cases hpfv : g.persistFails = true
      · simp [hpfv]
      · simp only [Bool.not_eq_true] at hpfv
        simp [hpfv, applyLoyalty_products, applyLoyalty_transactions]

lemma create_credits_customer (f : Faults) (w : World) (u d t : String)
    (req : CreateTransactionRequest) (tx : Transaction) (cid : String) (c : Customer)
    (hok : (TransactionService.Create f w u d t req).2 = .ok tx)
    (hcid : req.customerID = some cid) (hne : cid ≠ "")
    (hcg : f.customerGetFails = false) (hcu : f.customerUpdateFails = false)
    (hc : getCustomer w cid = some c) :
    pointsOf (TransactionService.Create f w u d t req).1 cid
      = c.loyaltyPoints + LoyaltyPointsPerTransaction := by
  unfold TransactionService.Create at hok ⊢
  cases hloop : createItemsLoop f.productGetFails f.stockUpdateFails t 0 w req.items with
  | mk w1 r =>
    cases r with
    | error e =>
      rw [hloop] at hok
      simp at hok
    | ok pair =>
      obtain ⟨its, sub⟩ := pair
      by_cases hpf : f.persistFails = true
      · rw [hloop] at hok
        simp [hpf] at hok
      · simp only [Bool.not_eq_true] at hpf
        have hw1 : w1.customers = w.customers := by
          have := (createItemsLoop_tables f.productGetFails f.stockUpdateFails t req.items 0 w).1
          rw [hloop] at this
          exact this
        simp only [hpf, Bool.false_eq_true, if_false, hcid, hcg, hcu]
        exact applyLoyalty_credits _ cid c
          ((getCustomer_congr _ w hw1 cid).trans hc) hne

/-- A placeholder transaction, used only to totalise `okTxD`. -/
def defaultTransaction : Transaction :=
  { id := "", userID := "", customerID := none, invoiceNumber := "", subtotal := 0,
    taxAmount := 0, discountAmount := 0, totalAmount := 0, paymentMethod := "",
    status := "", notes := "", items := [] }

/-- Result projection: the created sale itself (placeholder on error). -/
def okTxD : Except CreateErr Transaction → Transaction
  | .ok t => t
  | .error _ => defaultTransaction

/-- The stored status of a sale as read through transactionRepository.GetByID
(empty string for a missing row). -/
def statusInWorld (w : World) (id : String) : String :=
  match getTransaction w id with
  | some t => t.status
  | none => ""

lemma string_append_left_cancel (s a b : String) (h : s ++ a = s ++ b) : a = b := by
  cases s with
  | mk sl =>
    cases a with
    | mk al =>
      cases b with
      | mk bl =>
        have hdata : sl ++ al = sl ++ bl := congrArg String.data h
        exact congrArg String.mk (List.append_cancel_left hdata)

lemma invoice_ne_of_take_ne (d a b : String) (h : a ≠ b) :
    "INV-" ++ d ++ "-" ++ a ≠ "INV-" ++ d ++ "-" ++ b := by
  intro he
  exact h (string_append_left_cancel ("INV-" ++ d ++ "-") a b he)

/-- C1 scenario: one existing product with stock 10; the second requested
product does not exist. -/
def c1World : World :=
  { products := [mkProduct "p1" "Widget" 5 10], transactions := [], customers := [] }

/-- C1 request: two line items, the second referencing a missing product. -/
def c1Req : CreateTransactionRequest := mkReq [⟨"p1", 2⟩, ⟨"p2", 1⟩] 0

/-- C1 fault setting: the final persistence of the sale fails. -/
def c1PersistFaults : Faults := { noFaults with persistFails := true }

/-- C1: refuted by the code (code_bug).  A Create call that fails on its
second line item (product not found) has already decremented the first
product's stock from 10 to 8 and returns the error without rolling it
back; a Create whose final persistence fails likewise leaves the
decrement in place.  The spec's rollback requirement does not hold. -/
theorem c1_failed_create_keeps_partial_decrement :
    ((TransactionService.Create noFaults c1World "u1" "20260101" "c1tx0000" c1Req).2
        = .error (.productNotFound "p2")
      ∧ stockOf (TransactionService.Create noFaults c1World "u1" "20260101" "c1tx0000" c1Req).1
          "p1" = 8
      ∧ stockOf c1World "p1" = 10)
    ∧ ((TransactionService.Create c1PersistFaults c1World "u1" "20260101" "c1tx0001"
          (mkReq [⟨"p1", 2⟩] 0)).2 = .error .repoFailure
      ∧ stockOf (TransactionService.Create c1PersistFaults c1World "u1" "20260101" "c1tx0001"
          (mkReq [⟨"p1", 2⟩] 0)).1 "p1" = 8) := by
  decide

/-- C2: refuted by the code (code_bug).  The stock check and the stock
write of a reservation are two separate database operations (GetByID, then
UpdateStock writing the read value minus the quantity); in the interleaving
read1-read2-write1-write2 two concurrent reservations of 3 each against
stock 5 both succeed (combined 6 > 5) — the classic lost update the spec's
atomicity requirement forbids.  Run sequentially, the same two calls behave
correctly: the second fails. -/
theorem c2_concurrent_reservations_oversell :
    (runReserveSched 3 3 [true, false, true, false] 5 .start .start
      = (2, .succeeded, .succeeded)
    ∧ (3 + 3 : Int) > 5)
    ∧ runReserveSched 3 3 [true, true, false, false] 5 .start .start
      = (2, .succeeded, .failed) := by
  decide

/-- C5: refuted by the code (code_bug).  transactionRepository.UpdateStatus
is an unconditional write (no compare-and-swap on the stored status), and
the service's IsRefundable check reads a status loaded earlier; under the
interleaving load1-load2-restore1-restore2 two concurrent refund requests
for the same completed sale both pass the check and the compensating
restore fires twice (stock 95 → 105, restore count 2).  Run sequentially,
the second request is rejected and stock ends at exactly 100. -/
theorem c5_concurrent_duplicate_refund_restores_twice :
    runRefundSched 5 [true, false, true, false, true, false]
        { stock := 95, status := StatusCompleted } 0 .start .start
      = ({ stock := 105, status := StatusRefunded }, 2, .finished, .finished)
    ∧ runRefundSched 5 [true, true, true, false, false, false]
        { stock := 95, status := StatusCompleted } 0 .start .start
      = ({ stock := 100, status := StatusRefunded }, 1, .finished, .rejected) := by
  decide

/-- C3 scenario: a sale already in the terminal refunded state. -/
def c3Tx : Transaction :=
  { id := "t1", userID := "u1", customerID := none,
    invoiceNumber := "INV-20260101-aaaaaaaa", subtotal := 10, taxAmount := 1,
    discountAmount := 0, totalAmount := 11, paymentMethod := "cash",
    status := "refunded", notes := "", items := [] }

/-- C3 world: just the refunded sale. -/
def c3World : World := { products := [], transactions := [c3Tx], customers := [] }

/-- C3: counterexample.  A requested transition refunded → completed is not
rejected: TransactionService.UpdateStatus's switch has no guard for the
completed target, so it succeeds and overwrites the terminal refunded
status, and the request also reaches the service through
TransactionHandler.UpdateStatus because the dto accepts the value
completed. -/
theorem c3_refunded_to_completed_accepted :
    statusInWorld c3World "t1" = StatusRefunded
    ∧ isOkUpd (TransactionService.UpdateStatus noFaults c3World "t1" StatusCompleted).2 = true
    ∧ statusInWorld (TransactionService.UpdateStatus noFaults c3World "t1" StatusCompleted).1
        "t1" = StatusCompleted
    ∧ validateUpdateStatusRequest StatusCompleted = true
    ∧ isOkUpd (transactionHandlerUpdateStatus noFaults c3World "t1" StatusCompleted).2 = true
    ∧ statusInWorld (transactionHandlerUpdateStatus noFaults c3World "t1" StatusCompleted).1
        "t1" = StatusCompleted := by
  decide

/-- C3 (amended): transitions to cancelled succeed exactly from pending and
transitions to refunded exactly from completed, each failing otherwise with
an invalid-transition error that leaves the stored status untouched; but a
requested transition to completed (the third value the dto accepts) is
applied unconditionally from any current status, including the terminal
statuses cancelled and refunded, with no error and no stock side effect. -/
theorem c3_transition_relation (f : Faults) (w : World) (id : String) (tx : Transaction)
    (hget : getTransaction w id = some tx)
    (htx : f.txGetFails = false) (hst : f.statusUpdateFails = false) :
    (tx.status ≠ StatusPending →
      TransactionService.UpdateStatus f w id StatusCancelled = (w, .error .cannotCancel))
    ∧ (tx.status ≠ StatusCompleted →
      TransactionService.UpdateStatus f w id StatusRefunded = (w, .error .cannotRefund))
    ∧ TransactionService.UpdateStatus f w id StatusCompleted
        = (setTransactionStatus w id StatusCompleted, .ok { tx with status := StatusCompleted })
    ∧ statusInWorld w id = tx.status := by
  refine ⟨?_, ?_, ?_, ?_⟩
  · intro hne
    exact updateStatus_cancel_rejected f w id tx hget htx hne
  · intro hne
    exact updateStatus_refund_rejected f w id tx hget htx hne
  · exact updateStatus_other_passthrough f w id tx StatusCompleted hget htx hst
      (by decide) (by decide)
  · unfold statusInWorld
    rw [hget]

/-- C3 witness: the amended transition relation at the concrete refunded
sale — cancel and refund requests are rejected leaving the world untouched,
while the completed request goes straight through. -/
theorem c3_transition_relation_witness :
    TransactionService.UpdateStatus noFaults c3World "t1" StatusCancelled
      = (c3World, .error .cannotCancel)
    ∧ TransactionService.UpdateStatus noFaults c3World "t1" StatusRefunded
      = (c3World, .error .cannotRefund)
    ∧ TransactionService.UpdateStatus noFaults c3World "t1" StatusCompleted
      = (setTransactionStatus c3World "t1" StatusCompleted,
         .ok { c3Tx with status := StatusCompleted }) :=
  ⟨(c3_transition_relation noFaults c3World "t1" c3Tx (by decide) rfl rfl).1 (by decide),
   (c3_transition_relation noFaults c3World "t1" c3Tx (by decide) rfl rfl).2.1 (by decide),
   (c3_transition_relation noFaults c3World "t1" c3Tx (by decide) rfl rfl).2.2.1⟩

/-- C4 scenario: a product with available stock 100; a sale of quantity 5 is
created against it. -/
def c4World : World :=
  { products := [mkProduct "p1" "Widget" 10 100], transactions := [], customers := [] }

/-- C4: the Create call for quantity 5. -/
def c4Create : World × Except CreateErr Transaction :=
  TransactionService.Create noFaults c4World "u1" "20260101" "c4tx0000" (mkReq [⟨"p1", 5⟩] 0)

/-- C4: counterexample.  A sale produced by Create is born completed, so the
spec's round trip "create for quantity 5 from stock 100, then cancel, stock
is back to 100" fails on the code: the cancel request is rejected
(IsCancellable requires pending) and the stock stays at 95, not 100. -/
theorem c4_create_then_cancel_not_restored :
    isOkTx c4Create.2 = true
    ∧ okStatus c4Create.2 = StatusCompleted
    ∧ stockOf c4Create.1 "p1" = 95
    ∧ (TransactionService.UpdateStatus noFaults c4Create.1 "c4tx0000" StatusCancelled).2
        = .error .cannotCancel
    ∧ stockOf (TransactionService.UpdateStatus noFaults c4Create.1 "c4tx0000"
        StatusCancelled).1 "p1" = 95
    ∧ (95 : Int) ≠ 100 := by
  decide

/-- C4 (amended): a successful transition into cancelled (from pending) or
into refunded (from completed) increments every product's stock by exactly
the summed quantities of the sale's line items referencing it, exactly
once — so the stock round trip holds for the refund path (and for
cancellation of pending sales), but a sale created by Create is completed
and can only be refunded, never cancelled. -/
theorem c4_compensating_restore_exact (w : World) (id : String) (tx : Transaction)
    (newStatus : String) (pid : String)
    (hget : getTransaction w id = some tx)
    (hpres : ∀ item ∈ tx.items, (getProduct w item.productID).isSome = true)
    (hlegal : (newStatus = StatusCancelled ∧ tx.status = StatusPending)
      ∨ (newStatus = StatusRefunded ∧ tx.status = StatusCompleted)) :
    (TransactionService.UpdateStatus noFaults w id newStatus).2
      = .ok { tx with status := newStatus }
    ∧ stockOf (TransactionService.UpdateStatus noFaults w id newStatus).1 pid
        = stockOf w pid
          + ((tx.items.filter (fun item => item.productID == pid)).map
              (fun item => item.quantity)).sum := by
  rcases hlegal with ⟨h1, h2⟩ | ⟨h1, h2⟩
  · subst h1
    rw [updateStatus_cancelled_ok noFaults w id tx hget rfl rfl h2]
    refine ⟨rfl, ?_⟩
    rw [stockOf_setTransactionStatus, stockOf_restoreTransactionItems,
      restoredQty_noFaults w tx.items pid hpres]
  · subst h1
    rw [updateStatus_refunded_ok noFaults w id tx hget rfl rfl h2]
    refine ⟨rfl, ?_⟩
    rw [stockOf_setTransactionStatus, stockOf_restoreTransactionItems,
      restoredQty_noFaults w tx.items pid hpres]

/-- C4: the sale stored by the Create of the C4 scenario. -/
def c4StoredTx : Transaction := okTxD c4Create.2

/-- C4 witness: refunding the created sale restores the stock to exactly
100 — the amended theorem applied at the concrete scenario, plus the
numeric evaluations. -/
theorem c4_compensating_restore_exact_witness :
    ((TransactionService.UpdateStatus noFaults c4Create.1 "c4tx0000" StatusRefunded).2
      = .ok { c4StoredTx with status := StatusRefunded }
    ∧ stockOf (TransactionService.UpdateStatus noFaults c4Create.1 "c4tx0000"
        StatusRefunded).1 "p1"
      = stockOf c4Create.1 "p1"
        + ((c4StoredTx.items.filter (fun item => item.productID == "p1")).map
            (fun item => item.quantity)).sum)
    ∧ stockOf c4World "p1" = 100
    ∧ stockOf c4Create.1 "p1" = 95
    ∧ stockOf (TransactionService.UpdateStatus noFaults c4Create.1 "c4tx0000"
        StatusRefunded).1 "p1" = 100 :=
  ⟨c4_compensating_restore_exact c4Create.1 "c4tx0000" c4StoredTx StatusRefunded "p1"
      rfl (by decide) (Or.inr ⟨rfl, rfl⟩),
   by decide, by decide, by decide⟩

/-- C6 counterexample scenario: a product priced 0.105 (21/200). -/
def c6World : World :=
  { products := [mkProduct "p1" "Cheap" (21/200) 10], transactions := [], customers := [] }

/-- C6: the Create call for one unit of the 0.105-priced product. -/
def c6Run : World × Except CreateErr Transaction :=
  TransactionService.Create noFaults c6World "u1" "20260101" "c6tx0000" (mkReq [⟨"p1", 1⟩] 0)

/-- C6: counterexample.  The code never rounds: for a unit price of 0.105
the persisted subtotal is exactly 0.105, while the spec's 2-decimal
half-up rounding would give 0.11. -/
theorem c6_subtotal_not_rounded :
    isOkTx c6Run.2 = true
    ∧ okSubtotal c6Run.2 = 21/200
    ∧ roundHalfUp2 (21/200) = 11/100
    ∧ okSubtotal c6Run.2 ≠ roundHalfUp2 (21/200) := by
  refine ⟨by decide, ?_, ?_, ?_⟩
  · norm_num [c6Run, c6World, TransactionService.Create, createItemsLoop, getProduct,
      mkProduct, mkReq, noFaults, updateStock, applyLoyalty, Product.HasSufficientStock,
      okSubtotal, List.find?]
  · norm_num [roundHalfUp2]
  · norm_num [c6Run, c6World, TransactionService.Create, createItemsLoop, getProduct,
      mkProduct, mkReq, noFaults, updateStock, applyLoyalty, Product.HasSufficientStock,
      okSubtotal, roundHalfUp2, List.find?]

/-- C6 (amended): the persisted totals are exact, unrounded arithmetic:
each line subtotal is unit price times quantity, the sale's subtotal is
the sum of its line subtotals, tax is subtotal times the 10% rate and
total is subtotal + tax − discount; no rounding step is applied. -/
theorem c6_totals_exact_unrounded (f : Faults) (w : World) (u d t : String)
    (req : CreateTransactionRequest) (tx : Transaction)
    (hok : (TransactionService.Create f w u d t req).2 = .ok tx) :
    tx.subtotal = (tx.items.map (fun i => i.subtotal)).sum
    ∧ (∀ i ∈ tx.items, i.subtotal = i.unitPrice * (i.quantity : ℚ))
    ∧ tx.taxAmount = tx.subtotal * TaxRate
    ∧ tx.totalAmount = tx.subtotal + tx.taxAmount - req.discountAmount := by
  obtain ⟨w1, its, sub, hloop, hpf, htx⟩ := create_ok_shape f w u d t req tx hok
  obtain ⟨hsum, hitems⟩ := createItemsLoop_ok_subtotal f.productGetFails f.stockUpdateFails
    t req.items 0 w w1 its sub hloop
  subst htx
  exact ⟨hsum, hitems, rfl, rfl⟩

/-- C6 witness scenario: the spec's worked example, items
[(10000, 2), (5000, 3)] with discount 0. -/
def c6ExampleWorld : World :=
  { products := [mkProduct "pa" "A" 10000 10, mkProduct "pb" "B" 5000 10],
    transactions := [], customers := [] }

/-- C6 witness run. -/
def c6ExampleRun : World × Except CreateErr Transaction :=
  TransactionService.Create noFaults c6ExampleWorld "u1" "20260102" "c6ex0000"
    (mkReq [⟨"pa", 2⟩, ⟨"pb", 3⟩] 0)

/-- C6 witness: the amended totals theorem at the spec's worked example,
together with the concrete values subtotal 35000, tax 3500, total 38500. -/
theorem c6_totals_exact_unrounded_witness :
    ((okTxD c6ExampleRun.2).subtotal
        = ((okTxD c6ExampleRun.2).items.map (fun i => i.subtotal)).sum
    ∧ (∀ i ∈ (okTxD c6ExampleRun.2).items, i.subtotal = i.unitPrice * (i.quantity : ℚ))
    ∧ (okTxD c6ExampleRun.2).taxAmount = (okTxD c6ExampleRun.2).subtotal * TaxRate
    ∧ (okTxD c6ExampleRun.2).totalAmount
        = (okTxD c6ExampleRun.2).subtotal + (okTxD c6ExampleRun.2).taxAmount - 0)
    ∧ (okTxD c6ExampleRun.2).subtotal = 35000
    ∧ (okTxD c6ExampleRun.2).taxAmount = 3500
    ∧ (okTxD c6ExampleRun.2).totalAmount = 38500 :=
  ⟨c6_totals_exact_unrounded noFaults c6ExampleWorld "u1" "20260102" "c6ex0000"
      (mkReq [⟨"pa", 2⟩, ⟨"pb", 3⟩] 0) (okTxD c6ExampleRun.2) rfl,
   by
     have h : (okTxD c6ExampleRun.2).subtotal
         = 10000 * ((2 : Int) : ℚ) + (5000 * ((3 : Int) : ℚ) + 0) := rfl
     rw [h]
     norm_num,
   by
     have h : (okTxD c6ExampleRun.2).taxAmount
         = (10000 * ((2 : Int) : ℚ) + (5000 * ((3 : Int) : ℚ) + 0)) * TaxRate := rfl
     rw [h]
     norm_num [TaxRate],
   by
     have h : (okTxD c6ExampleRun.2).totalAmount
         = (10000 * ((2 : Int) : ℚ) + (5000 * ((3 : Int) : ℚ) + 0))
           + (10000 * ((2 : Int) : ℚ) + (5000 * ((3 : Int) : ℚ) + 0)) * TaxRate - 0 := rfl
     rw [h]
     norm_num [TaxRate]⟩

/-- C7 scenario: a cheap product and a request whose discount (1,000,000)
vastly exceeds subtotal + tax (11). -/
def c7World : World :=
  { products := [mkProduct "p1" "Widget" 10 10], transactions := [], customers := [] }

/-- C7 request: valid by the dto rules, discount 1,000,000. -/
def c7Req : CreateTransactionRequest := mkReq [⟨"p1", 1⟩] 1000000

/-- C7: the validated Create call for the excessive-discount request. -/
def c7Run : World × Except CreateErr Transaction :=
  transactionHandlerCreate noFaults c7World "u1" "20260101" "c7tx0000" c7Req

/-- C7: POS checkout with an empty cart. -/
def c7PosEmptyRun : World × Except CreateErr Transaction :=
  posHandlerCreateTransaction noFaults c7World "u1" "20260101" "c7tx0002" (mkReq [] 0)

/-- C7: POS checkout requesting a negative quantity. -/
def c7PosNegQtyRun : World × Except CreateErr Transaction :=
  posHandlerCreateTransaction noFaults c7World "u1" "20260101" "c7tx0003"
    (mkReq [⟨"p1", -5⟩] 0)

/-- C7: POS checkout with a payment method outside the enum. -/
def c7PosBadPayReq : CreateTransactionRequest :=
  { customerID := none, paymentMethod := "bitcoin", discountAmount := 0, notes := "",
    items := [⟨"p1", 1⟩] }

/-- C7: the run of the out-of-enum payment method through the POS path. -/
def c7PosBadPayRun : World × Except CreateErr Transaction :=
  posHandlerCreateTransaction noFaults c7World "u1" "20260101" "c7tx0004" c7PosBadPayReq

/-- C7: counterexample.  The dto validation only requires discount ≥ 0, so
a discount exceeding subtotal + tax passes the validated endpoint, the
stock is decremented and a sale with total −999989 is persisted; and the
POS endpoint calls the service with no validation at all, so through it an
empty cart persists a zero-item sale, a negative quantity (−5) passes the
stock check and increases stock from 10 to 15, and an out-of-enum payment
method is persisted verbatim. -/
theorem c7_discount_accepted_and_pos_path_unvalidated :
    (validateCreateTransactionRequest c7Req = true
      ∧ isOkTx c7Run.2 = true
      ∧ stockOf c7Run.1 "p1" = 9
      ∧ okTotal c7Run.2 = -999989
      ∧ ((-999989 : ℚ) < 0))
    ∧ (isOkTx c7PosEmptyRun.2 = true
      ∧ (okTxD c7PosEmptyRun.2).items = []
      ∧ (c7PosEmptyRun.1).transactions.length = 1)
    ∧ (isOkTx c7PosNegQtyRun.2 = true
      ∧ stockOf c7PosNegQtyRun.1 "p1" = 15)
    ∧ (isOkTx c7PosBadPayRun.2 = true
      ∧ (okTxD c7PosBadPayRun.2).paymentMethod = "bitcoin") := by
  refine ⟨⟨by decide, by decide, by decide, ?_, by norm_num⟩, by decide, by decide, by decide⟩
  have h : okTotal c7Run.2
      = (10 * ((1 : Int) : ℚ) + 0) + (10 * ((1 : Int) : ℚ) + 0) * TaxRate - 1000000 := rfl
  rw [h]
  norm_num [TaxRate]

/-- C7 (amended): on the validated endpoint TransactionHandler.Create, an
empty line-item list, a non-positive quantity and a payment method outside
the allowed enum are each rejected by the dto validation before the
service runs, so no product stock changes and no sale is persisted there;
but a discount exceeding subtotal + tax passes validation (only negative
discounts are rejected) so the persisted total can be negative, and the
POS endpoint POSHandler.CreateTransaction reaches the service with no
validation at all, where none of these checks exist. -/
theorem c7_validation_rejected_before_mutation (f : Faults) (w : World) (u d t : String)
    (req : CreateTransactionRequest)
    (hbad : req.items = []
      ∨ (∃ i ∈ req.items, i.quantity ≤ 0)
      ∨ req.paymentMethod ∉ allowedPaymentMethods) :
    transactionHandlerCreate f w u d t req = (w, .error .validationFailed) := by
  have hval : validateCreateTransactionRequest req = false := by
    unfold validateCreateTransactionRequest
    rcases hbad with h | ⟨i, hi, hq⟩ | h
    · simp [h]
    · simp
      intro _ _ _ _
      exact ⟨i, hi, fun _ => hq⟩
    · simp
      intro hmem
      exact absurd hmem h
  unfold transactionHandlerCreate
  rw [hval]
  simp

/-- C7 witness request: an empty cart. -/
def c7BadReq : CreateTransactionRequest := mkReq [] 0

/-- C7 witness: on the validated endpoint the empty-cart request is
rejected with a validation error and the world — in particular the
product's stock — is untouched. -/
theorem c7_validation_rejected_before_mutation_witness :
    transactionHandlerCreate noFaults c7World "u1" "20260101" "c7tx0001" c7BadReq
      = (c7World, .error .validationFailed)
    ∧ stockOf c7World "p1" = 10 :=
  ⟨c7_validation_rejected_before_mutation noFaults c7World "u1" "20260101" "c7tx0001" c7BadReq
      (Or.inl rfl), by decide⟩

/-- C8 scenario: a product with plenty of stock, sold twice on the same day
by two Create calls whose fresh sale ids differ only after the 8th
character (uuid strings sharing their first 8 hex characters). -/
def c8World : World :=
  { products := [mkProduct "p1" "Widget" 5 100], transactions := [], customers := [] }

/-- C8: first Create call, sale id "aaaaaaaa-1". -/
def c8RunA : World × Except CreateErr Transaction :=
  TransactionService.Create noFaults c8World "u1" "20260101" "aaaaaaaa-1" (mkReq [⟨"p1", 1⟩] 0)

/-- C8: second Create call, sale id "aaaaaaaa-2". -/
def c8RunB : World × Except CreateErr Transaction :=
  TransactionService.Create noFaults c8World "u1" "20260101" "aaaaaaaa-2" (mkReq [⟨"p1", 1⟩] 0)

/-- C8: counterexample.  The invoice suffix is a truncation (first 8
characters) of the sale's uuid, so two distinct Create calls with distinct
sale ids can produce the same invoice number — distinctness of invoice
numbers is not guaranteed by construction. -/
theorem c8_invoice_collision_possible :
    ("aaaaaaaa-1" : String) ≠ "aaaaaaaa-2"
    ∧ isOkTx c8RunA.2 = true
    ∧ isOkTx c8RunB.2 = true
    ∧ okSaleID c8RunA.2 = "aaaaaaaa-1"
    ∧ okSaleID c8RunB.2 = "aaaaaaaa-2"
    ∧ okInvoice c8RunA.2 = "INV-20260101-aaaaaaaa"
    ∧ okInvoice c8RunA.2 = okInvoice c8RunB.2 := by
  decide

/-- C8 (amended): every sale returned by Create carries an invoice number
of the form INV-<date>-<first 8 characters of the sale's fresh uuid>, and
two Create calls on the same date produce distinct invoice numbers
whenever the first 8 characters of their uuids differ (truncation means
collisions remain possible in principle). -/
theorem c8_invoice_shape_and_distinctness (f g : Faults) (w v : World) (u1 u2 d t1 t2 : String)
    (req1 req2 : CreateTransactionRequest) (tx1 tx2 : Transaction)
    (h1 : (TransactionService.Create f w u1 d t1 req1).2 = .ok tx1)
    (h2 : (TransactionService.Create g v u2 d t2 req2).2 = .ok tx2)
    (hne : t1.take 8 ≠ t2.take 8) :
    tx1.invoiceNumber = "INV-" ++ d ++ "-" ++ t1.take 8
    ∧ tx2.invoiceNumber = "INV-" ++ d ++ "-" ++ t2.take 8
    ∧ tx1.invoiceNumber ≠ tx2.invoiceNumber := by
  obtain ⟨w1, its1, sub1, -, -, htx1⟩ := create_ok_shape f w u1 d t1 req1 tx1 h1
  obtain ⟨w2, its2, sub2, -, -, htx2⟩ := create_ok_shape g v u2 d t2 req2 tx2 h2
  subst htx1
  subst htx2
  exact ⟨rfl, rfl, invoice_ne_of_take_ne d (t1.take 8) (t2.take 8) hne⟩

/-- C8 witness: third Create call with a uuid differing within the first 8
characters. -/
def c8RunC : World × Except CreateErr Transaction :=
  TransactionService.Create noFaults c8World "u1" "20260101" "bbbbbbbb-1" (mkReq [⟨"p1", 1⟩] 0)

/-- C8 witness: the invoice shape and distinctness at two concrete Create
calls whose uuids differ in their first 8 characters. -/
theorem c8_invoice_shape_and_distinctness_witness :
    (okTxD c8RunA.2).invoiceNumber = "INV-" ++ "20260101" ++ "-" ++ ("aaaaaaaa-1".take 8)
    ∧ (okTxD c8RunC.2).invoiceNumber = "INV-" ++ "20260101" ++ "-" ++ ("bbbbbbbb-1".take 8)
    ∧ (okTxD c8RunA.2).invoiceNumber ≠ (okTxD c8RunC.2).invoiceNumber :=
  c8_invoice_shape_and_distinctness noFaults noFaults c8World c8World "u1" "u1" "20260101"
    "aaaaaaaa-1" "bbbbbbbb-1" (mkReq [⟨"p1", 1⟩] 0) (mkReq [⟨"p1", 1⟩] 0)
    (okTxD c8RunA.2) (okTxD c8RunC.2) rfl rfl (by decide)

/-- C9: confirmed.  The outcome of Create — the returned sale or error, the
product table and the transaction table — is identical whatever the
customer-repository calls do (only the product/stock/persist fault settings
matter), and when the crediting path does succeed the specified customer
gains exactly LoyaltyPointsPerTransaction points. -/
theorem c9_loyalty_crediting_best_effort (f g : Faults) (w : World) (u d t : String)
    (req : CreateTransactionRequest) (tx : Transaction) (cid : String) (c : Customer)
    (hp : f.productGetFails = g.productGetFails)
    (hs : f.stockUpdateFails = g.stockUpdateFails)
    (hpf : f.persistFails = g.persistFails)
    (hok : (TransactionService.Create f w u d t req).2 = .ok tx)
    (hcid : req.customerID = some cid) (hne : cid ≠ "")
    (hcg : f.customerGetFails = false) (hcu : f.customerUpdateFails = false)
    (hc : getCustomer w cid = some c) :
    ((TransactionService.Create f w u d t req).2 = (TransactionService.Create g w u d t req).2
      ∧ ((TransactionService.Create f w u d t req).1).products
          = ((TransactionService.Create g w u d t req).1).products
      ∧ ((TransactionService.Create f w u d t req).1).transactions
          = ((TransactionService.Create g w u d t req).1).transactions)
    ∧ pointsOf (TransactionService.Create f w u d t req).1 cid
        = c.loyaltyPoints + LoyaltyPointsPerTransaction :=
  ⟨create_customerFault_independent f g w u d t req hp hs hpf,
   create_credits_customer f w u d t req tx cid c hok hcid hne hcg hcu hc⟩

/-- C9 scenario: a customer with 7 points buying one unit. -/
def c9World : World :=
  { products := [mkProduct "p1" "Widget" 5 10], transactions := [],
    customers := [{ id := "c1", loyaltyPoints := 7 }] }

/-- C9 request naming the customer. -/
def c9Req : CreateTransactionRequest :=
  { customerID := some "c1", paymentMethod := "cash", discountAmount := 0, notes := "",
    items := [⟨"p1", 1⟩] }

/-- C9 fault setting: both customer-repository calls fail. -/
def c9Faults : Faults :=
  { noFaults with customerGetFails := true, customerUpdateFails := true }

/-- C9: the fault-free run. -/
def c9Run : World × Except CreateErr Transaction :=
  TransactionService.Create noFaults c9World "u1" "20260101" "c9tx0000" c9Req

/-- C9: the run whose customer-repository calls fail. -/
def c9RunFaulty : World × Except CreateErr Transaction :=
  TransactionService.Create c9Faults c9World "u1" "20260101" "c9tx0000" c9Req

/-- C9 witness: with crediting working the customer ends at 7 + 10 points;
with the customer repository failing the sale result and the
product/transaction tables are identical, the sale still succeeds, and
only the points stay at 7. -/
theorem c9_loyalty_crediting_best_effort_witness :
    (c9Run.2 = c9RunFaulty.2
      ∧ c9Run.1.products = c9RunFaulty.1.products
      ∧ c9Run.1.transactions = c9RunFaulty.1.transactions)
    ∧ pointsOf c9Run.1 "c1" = 7 + LoyaltyPointsPerTransaction
    ∧ pointsOf c9RunFaulty.1 "c1" = 7
    ∧ isOkTx c9RunFaulty.2 = true :=
  ⟨(c9_loyalty_crediting_best_effort noFaults c9Faults c9World "u1" "20260101" "c9tx0000"
      c9Req (okTxD c9Run.2) "c1" { id := "c1", loyaltyPoints := 7 }
      rfl rfl rfl rfl rfl (by decide) rfl rfl (by decide)).1,
   (c9_loyalty_crediting_best_effort noFaults c9Faults c9World "u1" "20260101" "c9tx0000"
      c9Req (okTxD c9Run.2) "c1" { id := "c1", loyaltyPoints := 7 }
      rfl rfl rfl rfl rfl (by decide) rfl rfl (by decide)).2,
   by decide, by decide⟩

/-- C10: confirmed.  During a transition into cancelled (from pending) or
refunded (from completed), every line item whose product lookup fails or
whose product row is gone — or whose stock write fails — is skipped
silently; the remaining items' quantities are restored, and UpdateStatus
still reports success.  `restoredQty` counts exactly the non-skipped
items. -/
theorem c10_restore_skips_failed_product_lookups (f : Faults) (w : World) (id : String)
    (tx : Transaction) (newStatus : String) (pid : String)
    (hget : getTransaction w id = some tx)
    (htx : f.txGetFails = false) (hst : f.statusUpdateFails = false)
    (hlegal : (newStatus = StatusCancelled ∧ tx.status = StatusPending)
      ∨ (newStatus = StatusRefunded ∧ tx.status = StatusCompleted)) :
    isOkUpd (TransactionService.UpdateStatus f w id newStatus).2 = true
    ∧ stockOf (TransactionService.UpdateStatus f w id newStatus).1 pid
        = stockOf w pid + restoredQty f w tx.items pid := by
  rcases hlegal with ⟨h1, h2⟩ | ⟨h1, h2⟩
  · subst h1
    rw [updateStatus_cancelled_ok f w id tx hget htx hst h2]
    exact ⟨rfl, by rw [stockOf_setTransactionStatus, stockOf_restoreTransactionItems]⟩
  · subst h1
    rw [updateStatus_refunded_ok f w id tx hget htx hst h2]
    exact ⟨rfl, by rw [stockOf_setTransactionStatus, stockOf_restoreTransactionItems]⟩

/-- C10 scenario: a completed sale with two line items. -/
def c10Tx : Transaction :=
  { id := "t1", userID := "u1", customerID := none,
    invoiceNumber := "INV-20260101-cccccccc", subtotal := 0, taxAmount := 0,
    discountAmount := 0, totalAmount := 0, paymentMethod := "cash",
    status := "completed", notes := "",
    items :=
      [{ id := "i1", transactionID := "t1", productID := "p1", productName := "Widget",
         unitPrice := 5, quantity := 3, subtotal := 15 },
       { id := "i2", transactionID := "t1", productID := "p2", productName := "Gadget",
         unitPrice := 2, quantity := 4, subtotal := 8 }] }

/-- C10 world: both products exist with stocks 10 and 5. -/
def c10World : World :=
  { products := [mkProduct "p1" "Widget" 5 10, mkProduct "p2" "Gadget" 2 5],
    transactions := [c10Tx], customers := [] }

/-- C10 fault setting: the lookup of product p2 fails during the restore. -/
def c10Faults : Faults := { noFaults with productGetFails := ["p2"] }

/-- C10 witness: refunding the sale while p2's lookup fails still succeeds;
p1 is restored from 10 to 13, p2 stays at 5 — its restore was skipped
silently. -/
theorem c10_restore_skips_failed_product_lookups_witness :
    (isOkUpd (TransactionService.UpdateStatus c10Faults c10World "t1" StatusRefunded).2 = true
    ∧ stockOf (TransactionService.UpdateStatus c10Faults c10World "t1" StatusRefunded).1 "p1"
        = stockOf c10World "p1" + restoredQty c10Faults c10World c10Tx.items "p1")
    ∧ stockOf (TransactionService.UpdateStatus c10Faults c10World "t1" StatusRefunded).1 "p2"
        = stockOf c10World "p2" + restoredQty c10Faults c10World c10Tx.items "p2"
    ∧ restoredQty c10Faults c10World c10Tx.items "p1" = 3
    ∧ restoredQty c10Faults c10World c10Tx.items "p2" = 0
    ∧ stockOf (TransactionService.UpdateStatus c10Faults c10World "t1" StatusRefunded).1 "p1" = 13
    ∧ stockOf (TransactionService.UpdateStatus c10Faults c10World "t1" StatusRefunded).1 "p2" = 5 :=
  ⟨c10_restore_skips_failed_product_lookups c10Faults c10World "t1" c10Tx StatusRefunded "p1"
      (by decide) rfl rfl (Or.inr ⟨rfl, rfl⟩),
   (c10_restore_skips_failed_product_lookups c10Faults c10World "t1" c10Tx StatusRefunded "p2"
      (by decide) rfl rfl (Or.inr ⟨rfl, rfl⟩)).2,
   by decide, by decide, by decide, by decide⟩
